import Mathlib

/-!
Verification of the `SimpleRAG` service in `src/app/services/rag_service.py`
(repository KnowAboutMe).

Shallow embedding. The external collaborators are modelled as opaque function
parameters, since their code is not part of this repository:
* the langchain `RecursiveCharacterTextSplitter.split_text` is a parameter
  `splitText : String → List String`;
* the Chroma vector store is an abstract type `VS` together with
  `fromTexts` (Chroma.from_texts), `addTexts` (add_texts) and
  `simSearch` (similarity_search_with_score); distance scores are floats in
  the source and are abstracted as `Int`, since no verified property depends
  on their values;
* the OpenAI chat completion call is a parameter
  `backend : String → String → Except String String` taking the system and
  user prompts; `Except.ok c` models a response whose extracted content is
  `c`, `Except.error e` models any raised exception (timeout, quota,
  malformed response), matching the catch-all `except` in the source.

The mutable state of a `SimpleRAG` instance, together with the one piece of
filesystem state the code consults (`os.path.exists(CHROMA_PERSIST_DIRECTORY)`),
is the structure `RAGState`.  Methods that mutate no field return the input
state unchanged, mirroring the absence of `self` assignments in their bodies.
-/

namespace KnowAboutMe

/-- A Chroma `Document` as consumed by `search`: its `page_content` and the
`"source"` entry of its metadata (`metadata.get("source", "unknown")`). -/
structure ChromaDocument where
  page_content : String
  sourceMeta : Option String
deriving DecidableEq, Repr

/-- One element of the list returned by `SimpleRAG.search`
(`{"content": ..., "source": ..., "score": ...}`). -/
structure SearchResult where
  content : String
  source : String
  score : Int
deriving DecidableEq, Repr

/-- The dictionary returned by `SimpleRAG.answer_question`
(`{"answer": ..., "sources": ...}`). -/
structure QAResult where
  answer : String
  sources : List String
deriving DecidableEq, Repr

/-- One chunk as stored by `add_documents`: the chunk text together with its
metadata dict `{"source": doc_name, "chunk_id": i}`.  The Python code keeps
the texts and the metadata in two parallel lists; they are combined here. -/
structure ChunkEntry where
  text : String
  source : String
  chunk_id : Nat
deriving DecidableEq, Repr

/-- State of a `SimpleRAG` instance over an abstract vector-store type `VS`:
the `self.vectorstore` handle, whether `self.openai_client` is set, and
whether the persisted index directory `CHROMA_PERSIST_DIRECTORY` exists on
disk (the only filesystem fact `clear_vectorstore` consults). -/
structure RAGState (VS : Type) where
  vectorstore : Option VS
  openai_client : Bool
  persistDirExists : Bool
deriving DecidableEq, Repr

/-- The fixed answer returned when `self.vectorstore is None`
(rag_service.py line 187). -/
def noDocumentsMessage : String :=
  "No documents have been loaded yet. Please ensure your resume and documents are in the ./data/documents/ directory."

/-- The fixed answer returned when retrieval finds no relevant chunks
(rag_service.py line 196). -/
def noRelevantMessage : String :=
  "I couldn\x27t find relevant information in the uploaded documents to answer that question. Try asking about experience, skills, education, or projects."

/-- Index of the last occurrence of `c` in `l`, if any: the recursive core of
Python `str.rfind` for a single-character needle. -/
def lastIdxOf (l : List Char) (c : Char) : Option Nat :=
  match l with
  | [] => none
  | a :: t =>
    match lastIdxOf t c with
    | some i => some (i + 1)
    | none => if a = c then some 0 else none

/-- Python `answer.rfind(c)`: highest index of `c`, and `-1` when absent. -/
def rfind (l : List Char) (c : Char) : Int :=
  match lastIdxOf l c with
  | some i => (i : Int)
  | none => -1

/-- Character-level body of `_generate_basic_answer` (rag_service.py lines
272-281): `answer = context[:1200]`; if the context is longer than 1200
characters and the last `'.'` of `answer` sits at an index above 500, cut
just after it. -/
def basicAnswerChars (context : List Char) : List Char :=
  let answer := context.take 1200
  if 1200 < context.length then
    let lastPeriod := rfind answer '.'
    if 500 < lastPeriod then answer.take (lastPeriod.toNat + 1) else answer
  else answer

/-- `SimpleRAG._generate_basic_answer(question, context)`.  The question is
unused by the source as well. -/
def generate_basic_answer (question context : String) : String :=
  String.mk (basicAnswerChars context.toList)

/-- The system prompt built by `_generate_openai_answer`. -/
def system_prompt : String :=
  "You are Uttej Reddy Thoompally, a Senior Software Engineer.\nAnswer questions about your professional background in first person using the provided context from your resume.\nBe conversational, confident, and natural. Don\x27t mention that you\x27re looking at a resume or documents.\nKeep answers concise (2-3 paragraphs max) but informative."

/-- The user prompt built by `_generate_openai_answer` (an f-string over the
context and the question). -/
def user_prompt (question context : String) : String :=
  "Context from my resume:\n" ++ context ++ "\n\nQuestion: " ++ question ++ "\n\nPlease answer this question naturally in first person, as if you\x27re speaking in an interview."

/-- `SimpleRAG._generate_openai_answer(question, context)`: invoke the backend
with the two prompts; on success return the stripped content, on any raised
exception fall back to `_generate_basic_answer` (the catch-all `except` at
rag_service.py line 256). -/
def generate_openai_answer (backend : String → String → Except String String)
    (question context : String) : String :=
  match backend system_prompt (user_prompt question context) with
  | Except.ok content => content.trim
  | Except.error _ => generate_basic_answer question context

/-- `SimpleRAG.search(query, k)`: empty when no vector store exists, otherwise
map the raw `(document, score)` pairs into result dictionaries, defaulting a
missing `"source"` metadata key to `"unknown"`. -/
def search {VS : Type} (simSearch : VS → String → Nat → List (ChromaDocument × Int))
    (σ : RAGState VS) (query : String) (k : Nat) : List SearchResult :=
  match σ.vectorstore with
  | none => []
  | some vs =>
    (simSearch vs query k).map fun r =>
      { content := r.1.page_content, source := r.1.sourceMeta.getD "unknown", score := r.2 }

/-- `SimpleRAG.answer_question(question)`.  Returns the result dictionary
paired with the (unmodified) instance state: the method assigns to no field
of `self`.  Note the literal `"sources": []` in the source (line 216,
commented `Sources removed as per request`). -/
def answer_question {VS : Type} (simSearch : VS → String → Nat → List (ChromaDocument × Int))
    (backend : String → String → Except String String)
    (σ : RAGState VS) (question : String) : QAResult × RAGState VS :=
  match σ.vectorstore with
  | none => ({ answer := noDocumentsMessage, sources := [] }, σ)
  | some _ =>
    let relevant_docs := search simSearch σ question 5
    if relevant_docs.isEmpty then
      ({ answer := noRelevantMessage, sources := [] }, σ)
    else
      let full_context := String.intercalate "\n\n" (relevant_docs.map SearchResult.content)
      let answer :=
        if σ.openai_client then generate_openai_answer backend question full_context
        else generate_basic_answer question full_context
      ({ answer := answer, sources := [] }, σ)

/-- `SimpleRAG.add_documents(documents)`: split every document into chunks,
pair each chunk with its `{"source", "chunk_id"}` metadata, and only when the
resulting list is non-empty create or extend the vector store (and persist,
which makes the persisted directory exist).  When every document splits into
zero chunks the method does nothing and returns normally. -/
def add_documents {VS : Type} (splitText : String → List String)
    (fromTexts : List ChunkEntry → VS) (addTexts : VS → List ChunkEntry → VS)
    (σ : RAGState VS) (documents : List (String × String)) : RAGState VS :=
  let entries := documents.flatMap fun doc =>
    ((splitText doc.2).enum).map fun ic => ChunkEntry.mk ic.2 doc.1 ic.1
  if entries.isEmpty then σ
  else
    match σ.vectorstore with
    | none => { σ with vectorstore := some (fromTexts entries), persistDirExists := true }
    | some vs => { σ with vectorstore := some (addTexts vs entries), persistDirExists := true }

/-- `SimpleRAG.clear_vectorstore()`: only when the persisted directory exists,
delete it and set `self.vectorstore = None`; otherwise the method does
nothing (rag_service.py lines 283-289). -/
def clear_vectorstore {VS : Type} (σ : RAGState VS) : RAGState VS :=
  if σ.persistDirExists then { σ with vectorstore := none, persistDirExists := false } else σ

/-! ## Concrete collaborators used by witnesses and counterexamples -/

/-- A one-chunk retrieval result: the single document of the spec scenario. -/
def resumeHit : List (ChromaDocument × Int) :=
  [({ page_content := "Experienced engineer skilled in Python and distributed systems.",
      sourceMeta := some "resume.txt" }, 0)]

/-- A similarity search that always returns `resumeHit` (vector store `Unit`). -/
def cSimSearch : Unit → String → Nat → List (ChromaDocument × Int) :=
  fun _ _ _ => resumeHit

/-- A similarity search that never finds anything. -/
def cEmptySearch : Unit → String → Nat → List (ChromaDocument × Int) :=
  fun _ _ _ => []

/-- A backend invocation that always raises. -/
def cFailBackend : String → String → Except String String :=
  fun _ _ => Except.error "timeout"

/-- A state with an index, a configured OpenAI client and a persisted
directory. -/
def cState : RAGState Unit :=
  { vectorstore := some (), openai_client := true, persistDirExists := true }

/-- Extractive-mode state with an index. -/
def cStateBasic : RAGState Unit :=
  { vectorstore := some (), openai_client := false, persistDirExists := true }

/-- A state that never had documents. -/
def cEmptyState : RAGState Unit :=
  { vectorstore := none, openai_client := false, persistDirExists := false }

/-- A splitter producing no chunks for the empty string. -/
def cSplit : String → List String := fun _ => []

/-- Vector-store constructors over the trivial store `Unit`. -/
def cFromTexts : List ChunkEntry → Unit := fun _ => ()

/-- Vector-store extension over the trivial store `Unit`. -/
def cAddTexts : Unit → List ChunkEntry → Unit := fun _ _ => ()

/-! ## Helper lemmas -/

/-- Shared helper: with no vector store, `answer_question` returns the fixed
no-documents result and leaves the state unchanged. -/
theorem answer_question_none {VS : Type}
    (simSearch : VS → String → Nat → List (ChromaDocument × Int))
    (backend : String → String → Except String String)
    (σ : RAGState VS) (question : String) (h : σ.vectorstore = none) :
    answer_question simSearch backend σ question
      = ({ answer := noDocumentsMessage, sources := [] }, σ) := by
  unfold answer_question
  rw [h]

/-- Shared helper: with no vector store, `search` returns the empty list. -/
theorem search_none {VS : Type}
    (simSearch : VS → String → Nat → List (ChromaDocument × Int))
    (σ : RAGState VS) (query : String) (k : Nat) (h : σ.vectorstore = none) :
    search simSearch σ query k = [] := by
  unfold search
  rw [h]

/-- The invariant relating the in-memory handle to the persisted directory:
whenever an index exists in memory, the persisted directory exists on disk.
It holds for every state reachable through the service API (see the
preservation lemmas below). -/
def DirInvariant {VS : Type} (σ : RAGState VS) : Prop :=
  σ.vectorstore.isSome = true → σ.persistDirExists = true

/-- `add_documents` preserves the directory invariant: whenever it installs a
vector store it also persists it. -/
theorem add_documents_preserves_inv {VS : Type} (splitText : String → List String)
    (fromTexts : List ChunkEntry → VS) (addTexts : VS → List ChunkEntry → VS)
    (σ : RAGState VS) (documents : List (String × String)) (h : DirInvariant σ) :
    DirInvariant (add_documents splitText fromTexts addTexts σ documents) := by
  obtain ⟨vs, oc, dir⟩ := σ
  unfold DirInvariant at h ⊢
  unfold add_documents
  cases vs <;> dsimp only <;> split
  · exact h
  · intro _; rfl
  · exact h
  · intro _; rfl

/-- `SimpleRAG._initialize_vectorstore` (rag_service.py lines 46-62): when the
persisted directory exists, load it — `loaded` is `some` handle on success and
`none` when loading raised; otherwise the handle stays `None`.  (The
subsequent `_load_local_documents` step is `add_documents` on the parsed
local files.) -/
def initialize_vectorstore {VS : Type} (loaded : Option VS) (dirExists : Bool)
    (client : Bool) : RAGState VS :=
  { vectorstore := if dirExists then loaded else none,
    openai_client := client, persistDirExists := dirExists }

/-- Freshly initialized states satisfy the directory invariant. -/
theorem initialize_vectorstore_inv {VS : Type} (loaded : Option VS)
    (dirExists : Bool) (client : Bool) :
    DirInvariant (initialize_vectorstore loaded dirExists client) := by
  intro h
  cases dirExists with
  | false => simp [initialize_vectorstore] at h
  | true => rfl

/-- `clear_vectorstore` preserves the directory invariant. -/
theorem clear_preserves_inv {VS : Type} (σ : RAGState VS) (h : DirInvariant σ) :
    DirInvariant (clear_vectorstore σ) := by
  unfold clear_vectorstore DirInvariant
  split
  · simp
  · exact h

/-- When `lastIdxOf` finds nothing, the character occurs nowhere. -/
theorem lastIdxOf_eq_none_spec {l : List Char} {c : Char}
    (h : lastIdxOf l c = none) : ∀ j : Nat, l[j]? ≠ some c := by
  induction l with
  | nil => intro j; simp
  | cons a t ih =>
    intro j
    unfold lastIdxOf at h
    cases ht : lastIdxOf t c with
    | some i => rw [ht] at h; cases h
    | none =>
      rw [ht] at h
      by_cases hac : a = c
      · rw [if_pos hac] at h; cases h
      · cases j with
        | zero => simpa using hac
        | succ j => simpa using ih ht j

/-- When `lastIdxOf` returns `i`, the character sits at `i` and nowhere
later: `i` is the greatest index of `c` in `l`. -/
theorem lastIdxOf_eq_some_spec {l : List Char} {c : Char} {i : Nat}
    (h : lastIdxOf l c = some i) :
    l[i]? = some c ∧ ∀ j : Nat, i < j → l[j]? ≠ some c := by
  induction l generalizing i with
  | nil => cases h
  | cons a t ih =>
    unfold lastIdxOf at h
    cases ht : lastIdxOf t c with
    | some k =>
      rw [ht] at h
      injection h with h
      subst h
      obtain ⟨h1, h2⟩ := ih ht
      refine ⟨by simpa using h1, ?_⟩
      intro j hj
      cases j with
      | zero => omega
      | succ j => simpa using h2 j (by omega)
    | none =>
      rw [ht] at h
      by_cases hac : a = c
      · rw [if_pos hac] at h
        injection h with h
        subst h
        refine ⟨by simpa using hac, ?_⟩
        intro j hj
        cases j with
        | zero => omega
        | succ j => simpa using lastIdxOf_eq_none_spec ht j
      · rw [if_neg hac] at h; cases h

/-- Character-level characterization of `basicAnswerChars`: short contexts
pass through whole; long contexts are capped at 1200 characters and, when the
last period of the cap sits strictly above index 500, cut just after that
period. -/
theorem basicAnswerChars_spec (l : List Char) :
    (l.length ≤ 1200 → basicAnswerChars l = l) ∧
    (1200 < l.length →
      ((∃ i : Nat, 500 < i ∧ (l.take 1200)[i]? = some '.' ∧
          (∀ j : Nat, i < j → (l.take 1200)[j]? ≠ some '.') ∧
          basicAnswerChars l = (l.take 1200).take (i + 1)) ∨
        ((∀ j : Nat, (l.take 1200)[j]? = some '.' → j ≤ 500) ∧
          basicAnswerChars l = l.take 1200))) := by
  constructor
  · intro hle
    unfold basicAnswerChars
    rw [if_neg (by omega)]
    exact List.take_of_length_le hle
  · intro hgt
    unfold basicAnswerChars
    rw [if_pos hgt]
    dsimp only
    cases ht : lastIdxOf (l.take 1200) '.' with
    | none =>
      right
      refine ⟨fun j hj => absurd hj (lastIdxOf_eq_none_spec ht j), ?_⟩
      unfold rfind
      rw [ht]
      dsimp only
      norm_num
    | some i =>
      obtain ⟨h1, h2⟩ := lastIdxOf_eq_some_spec ht
      by_cases hi : 500 < i
      · left
        refine ⟨i, hi, h1, h2, ?_⟩
        unfold rfind
        rw [ht]
        dsimp only
        rw [if_pos (by exact_mod_cast hi)]
        norm_num
      · right
        constructor
        · intro j hj
          by_cases hji : i < j
          · exact absurd hj (h2 j hji)
          · omega
        · unfold rfind
          rw [ht]
          dsimp only
          rw [if_neg (by exact_mod_cast hi)]

/-- `basicAnswerChars` never returns the empty list on non-empty input. -/
theorem basicAnswerChars_ne_nil {l : List Char} (h : l ≠ []) :
    basicAnswerChars l ≠ [] := by
  have htk : l.take 1200 ≠ [] := by
    rw [Ne, List.take_eq_nil_iff]
    push_neg
    exact ⟨by omega, h⟩
  unfold basicAnswerChars
  dsimp only
  split
  · split
    · rw [Ne, List.take_eq_nil_iff]
      push_neg
      exact ⟨by omega, htk⟩
    · exact htk
  · exact htk

/-- A string whose character data is empty is the empty string. -/
theorem string_data_empty {s : String} (h : s.data = []) : s = "" := by
  cases s
  exact congrArg String.mk h

/-- A string built from a non-empty character list is not the empty string. -/
theorem string_mk_ne_empty {l : List Char} (h : l ≠ []) : String.mk l ≠ "" := by
  intro he
  exact h (congrArg String.data he)

/-- `_generate_basic_answer` never returns the empty string on a non-empty
context. -/
theorem generate_basic_answer_ne_empty (question context : String)
    (h : context ≠ "") : generate_basic_answer question context ≠ "" := by
  apply string_mk_ne_empty
  apply basicAnswerChars_ne_nil
  intro hd
  exact h (string_data_empty hd)

/-! ## Claim theorems -/

/-- C4: for every question, if no index exists (the vectorstore handle is
`None`), `answer_question` returns exactly the fixed no-documents message as
the answer and an empty sources list, without raising (the embedding is a
total function). -/
theorem spec_no_docs_message {VS : Type}
    (simSearch : VS → String → Nat → List (ChromaDocument × Int))
    (backend : String → String → Except String String)
    (σ : RAGState VS) (question : String) (h : σ.vectorstore = none) :
    answer_question simSearch backend σ question
      = ({ answer := noDocumentsMessage, sources := [] }, σ) :=
  answer_question_none simSearch backend σ question h

/-- Witness for C4 at a concrete never-ingested state. -/
theorem spec_no_docs_message_witness :
    answer_question cSimSearch cFailBackend cEmptyState "Who are you?"
      = ({ answer := noDocumentsMessage, sources := [] }, cEmptyState) :=
  spec_no_docs_message cSimSearch cFailBackend cEmptyState "Who are you?" rfl

/-- C8: for every query and every `k`, `search` returns the empty list — not
an error — when no index exists. -/
theorem spec_search_no_index {VS : Type}
    (simSearch : VS → String → Nat → List (ChromaDocument × Int))
    (σ : RAGState VS) (query : String) (k : Nat) (h : σ.vectorstore = none) :
    search simSearch σ query k = [] :=
  search_none simSearch σ query k h

/-- Witness for C8 at a concrete state with no index. -/
theorem spec_search_no_index_witness :
    search cSimSearch cEmptyState "nonexistent topic" 3 = [] :=
  spec_search_no_index cSimSearch cEmptyState "nonexistent topic" 3 rfl

/-- C10: when the persisted index directory does not exist,
`clear_vectorstore` is a no-op: it does not raise and leaves the whole state,
in particular the in-memory vectorstore handle, unchanged — so an externally
deleted directory makes `clear_vectorstore` fail to invalidate the in-memory
index. -/
theorem spec_clear_missing_dir_noop {VS : Type} (σ : RAGState VS)
    (h : σ.persistDirExists = false) :
    clear_vectorstore σ = σ ∧ (clear_vectorstore σ).vectorstore = σ.vectorstore := by
  unfold clear_vectorstore
  rw [h]
  exact ⟨rfl, rfl⟩

/-- A state holding an in-memory index whose persisted directory was deleted
externally. -/
def cOrphanState : RAGState Unit :=
  { vectorstore := some (), openai_client := true, persistDirExists := false }

/-- Witness for C10: a state whose in-memory index survives `clear_vectorstore`
because the directory is gone. -/
theorem spec_clear_missing_dir_noop_witness :
    clear_vectorstore cOrphanState = cOrphanState ∧
      (clear_vectorstore cOrphanState).vectorstore = some () :=
  ⟨(spec_clear_missing_dir_noop cOrphanState rfl).1,
    (spec_clear_missing_dir_noop cOrphanState rfl).1 ▸ rfl⟩

/-- C7: for every state satisfying the directory invariant (every state
reachable through the API does, by the preservation lemmas) in which an index
exists, `clear_vectorstore` followed by `answer_question` yields the fixed
no-documents result with empty sources, for every question. -/
theorem spec_clear_then_ask {VS : Type}
    (simSearch : VS → String → Nat → List (ChromaDocument × Int))
    (backend : String → String → Except String String)
    (σ : RAGState VS) (question : String)
    (hInv : DirInvariant σ) (hSome : σ.vectorstore.isSome = true) :
    answer_question simSearch backend (clear_vectorstore σ) question
      = ({ answer := noDocumentsMessage, sources := [] }, clear_vectorstore σ) := by
  apply answer_question_none
  unfold clear_vectorstore
  rw [hInv hSome]
  rfl

/-- Witness for C7 at a concrete indexed state. -/
theorem spec_clear_then_ask_witness :
    answer_question cSimSearch cFailBackend (clear_vectorstore cState) "What do you do?"
      = ({ answer := noDocumentsMessage, sources := [] }, clear_vectorstore cState) :=
  spec_clear_then_ask cSimSearch cFailBackend cState "What do you do?"
    (fun _ => rfl) rfl

/-- C5: against an existing index, `answer_question` retrieves with `k = 5`;
when that retrieval returns no chunks, the result is exactly the fixed
no-relevant-information message with empty sources (the hypothesis talks only
about the similarity search at `k = 5`, so the theorem pins the `k` the code
passes). -/
theorem spec_retrieve_k5_no_relevant {VS : Type}
    (simSearch : VS → String → Nat → List (ChromaDocument × Int))
    (backend : String → String → Except String String)
    (σ : RAGState VS) (question : String) (vs : VS)
    (hvs : σ.vectorstore = some vs) (hempty : simSearch vs question 5 = []) :
    answer_question simSearch backend σ question
      = ({ answer := noRelevantMessage, sources := [] }, σ) := by
  unfold answer_question search
  rw [hvs]
  simp [hempty]

/-- Witness for C5: a concrete indexed state whose retrieval finds nothing. -/
theorem spec_retrieve_k5_no_relevant_witness :
    answer_question cEmptySearch cFailBackend cStateBasic "What languages do you know?"
      = ({ answer := noRelevantMessage, sources := [] }, cStateBasic) :=
  spec_retrieve_k5_no_relevant cEmptySearch cFailBackend cStateBasic
    "What languages do you know?" () rfl rfl

/-- C3 counterexample: in the spec scenario itself — one ingested document
named `resume.txt`, a successful retrieval of its chunk — `answer_question`
returns an empty sources list, not the deduplicated set of the retrieved
chunks\x27 source names. -/
theorem spec_sources_counterexample :
    (answer_question cSimSearch cFailBackend cStateBasic
        "What languages do you know?").1.sources = [] ∧
      ¬ (answer_question cSimSearch cFailBackend cStateBasic
        "What languages do you know?").1.sources = ["resume.txt"] := by
  have h0 : (answer_question cSimSearch cFailBackend cStateBasic
      "What languages do you know?").1.sources = [] := rfl
  exact ⟨h0, by rw [h0]; simp⟩

/-- C3 amended: `answer_question` always returns an empty sources list — the
retrieved chunks\x27 source names are intentionally suppressed (the literal
`"sources": []` at rag_service.py line 216). -/
theorem spec_sources_always_empty {VS : Type}
    (simSearch : VS → String → Nat → List (ChromaDocument × Int))
    (backend : String → String → Except String String)
    (σ : RAGState VS) (question : String) :
    (answer_question simSearch backend σ question).1.sources = [] := by
  unfold answer_question
  cases σ.vectorstore <;> dsimp only <;> split <;> rfl

/-- C6 counterexample: ingesting a documents mapping whose sole document
splits into zero chunks returns normally with the state unchanged — no
`EmptyInputError` (no such exception exists anywhere in the code, and the
embedding of `add_documents` is a total function). -/
theorem spec_add_documents_empty_counterexample :
    add_documents cSplit cFromTexts cAddTexts cEmptyState [("empty.txt", "")]
      = cEmptyState := by
  rfl

/-- C6 amended: for every documents mapping whose contents all split into
zero chunks, `add_documents` returns normally and is a no-op: the state,
including the vectorstore handle, is returned unchanged, and no error is
raised. -/
theorem spec_add_documents_empty_noop {VS : Type} (splitText : String → List String)
    (fromTexts : List ChunkEntry → VS) (addTexts : VS → List ChunkEntry → VS)
    (σ : RAGState VS) (documents : List (String × String))
    (h : ∀ d ∈ documents, splitText d.2 = []) :
    add_documents splitText fromTexts addTexts σ documents = σ := by
  unfold add_documents
  have hentries : (documents.flatMap fun doc =>
      ((splitText doc.2).enum).map fun ic => ChunkEntry.mk ic.2 doc.1 ic.1) = [] := by
    rw [List.flatMap_eq_nil_iff]
    intro doc hdoc
    rw [h doc hdoc]
    rfl
  rw [hentries]
  rfl

/-- Witness for C6 amended, at a two-document mapping with an all-empty
splitter. -/
theorem spec_add_documents_empty_noop_witness :
    add_documents cSplit cFromTexts cAddTexts cState [("a.txt", ""), ("b.txt", "")]
      = cState :=
  spec_add_documents_empty_noop cSplit cFromTexts cAddTexts cState
    [("a.txt", ""), ("b.txt", "")] (fun _ _ => rfl)

/-- C2: the extractive answer is the 1200-character cap of the context; when
the context exceeds the cap, and the last period of the capped prefix sits
strictly after index 500, the prefix is cut just after that period (the
greatest period index, as the two side conditions state); when the last
period sits at or before 500 — or there is none — or the context fits within
the cap, the raw capped prefix is returned unmodified. -/
theorem spec_basic_answer_trim (question context : String) :
    (context.toList.length ≤ 1200 →
      (generate_basic_answer question context).toList = context.toList) ∧
    (1200 < context.toList.length →
      ((∃ i : Nat, 500 < i ∧ (context.toList.take 1200)[i]? = some '.' ∧
          (∀ j : Nat, i < j → (context.toList.take 1200)[j]? ≠ some '.') ∧
          (generate_basic_answer question context).toList
            = (context.toList.take 1200).take (i + 1)) ∨
        ((∀ j : Nat, (context.toList.take 1200)[j]? = some '.' → j ≤ 500) ∧
          (generate_basic_answer question context).toList
            = context.toList.take 1200))) :=
  basicAnswerChars_spec context.toList

/-- Witness for C2 at a concrete short context (cap not reached). -/
theorem spec_basic_answer_trim_witness :
    (generate_basic_answer "What languages do you know?"
        "Experienced engineer skilled in Python and distributed systems.").toList
      = "Experienced engineer skilled in Python and distributed systems.".toList ∧
      "Experienced engineer skilled in Python and distributed systems.".toList.length ≤ 1200 :=
  ⟨(spec_basic_answer_trim "What languages do you know?"
      "Experienced engineer skilled in Python and distributed systems.").1 (by decide),
    by decide⟩

/-- C9: for every question and context, `_generate_basic_answer` returns at
most 1200 characters. -/
theorem spec_basic_answer_le_cap (question context : String) :
    (generate_basic_answer question context).length ≤ 1200 := by
  show (basicAnswerChars context.toList).length ≤ 1200
  unfold basicAnswerChars
  dsimp only
  split
  · split
    · simp only [List.length_take]
      omega
    · simp only [List.length_take]
      omega
  · simp only [List.length_take]
    omega

/-- C1: with a configured OpenAI client whose every invocation raises, and a
non-trivial retrieval, `answer_question` returns exactly the extractive
answer built from the retrieved context — non-empty, never propagating the
backend error (the embedding is total) — and leaves the state, in particular
the configured client, unchanged: the fallback is per-call, not sticky. -/
theorem spec_backend_failure_fallback {VS : Type}
    (simSearch : VS → String → Nat → List (ChromaDocument × Int))
    (backend : String → String → Except String String)
    (σ : RAGState VS) (question err : String) (vs : VS)
    (hclient : σ.openai_client = true)
    (hfail : ∀ s u, backend s u = Except.error err)
    (hvs : σ.vectorstore = some vs)
    (hhits : simSearch vs question 5 ≠ [])
    (hctx : String.intercalate "\n\n"
        ((search simSearch σ question 5).map SearchResult.content) ≠ "") :
    (answer_question simSearch backend σ question).1.answer
        = generate_basic_answer question (String.intercalate "\n\n"
            ((search simSearch σ question 5).map SearchResult.content)) ∧
      (answer_question simSearch backend σ question).1.answer ≠ "" ∧
      (answer_question simSearch backend σ question).2 = σ ∧
      ((answer_question simSearch backend σ question).2).openai_client = true := by
  have hsearch : search simSearch σ question 5
      = (simSearch vs question 5).map (fun r =>
          { content := r.1.page_content, source := r.1.sourceMeta.getD "unknown",
            score := r.2 }) := by
    unfold search
    rw [hvs]
  have hne : (search simSearch σ question 5).isEmpty = false := by
    rw [hsearch]
    cases hcase : simSearch vs question 5 with
    | nil => exact absurd hcase hhits
    | cons a t => rfl
  have heq : answer_question simSearch backend σ question
      = (QAResult.mk (generate_basic_answer question (String.intercalate "\n\n"
            ((search simSearch σ question 5).map SearchResult.content))) [], σ) := by
    unfold answer_question
    rw [hvs]
    dsimp only
    rw [hne, hclient]
    simp only [Bool.false_eq_true, if_false, if_true]
    unfold generate_openai_answer
    rw [hfail]
  rw [heq]
  exact ⟨rfl, generate_basic_answer_ne_empty question _ hctx, rfl, hclient⟩

/-- Witness for C1: concrete state with a configured, always-failing backend
and a one-chunk retrieval; the answer is non-empty and the state (hence the
client) is unchanged. -/
theorem spec_backend_failure_fallback_witness :
    (answer_question cSimSearch cFailBackend cState
        "What languages do you know?").1.answer ≠ "" ∧
      (answer_question cSimSearch cFailBackend cState
        "What languages do you know?").2 = cState :=
  ⟨(spec_backend_failure_fallback cSimSearch cFailBackend cState
      "What languages do you know?" "timeout" () rfl (fun _ _ => rfl) rfl
      (by decide) (by decide)).2.1,
    (spec_backend_failure_fallback cSimSearch cFailBackend cState
      "What languages do you know?" "timeout" () rfl (fun _ _ => rfl) rfl
      (by decide) (by decide)).2.2.1⟩

end KnowAboutMe
